import Mathlib

/-!
Shallow embedding of `src/Resources/types.h`, a binary-template type
library (vector structs, bounding volumes, a packed 11/11/10 normal
decoder, offset-relative strings, and display formatters).

Modelling conventions:
* `u32` values are `Nat` reduced modulo `2 ^ 32` where the code's
  arithmetic wraps; `int` (32-bit signed) values are `Int` obtained by
  reinterpreting a 32-bit unsigned word (`toSigned32`).
* The C left shift on `u32` is multiplication by `2 ^ n` modulo `2 ^ 32`
  (`shl32`); the C arithmetic right shift on `int` is floor division by
  `2 ^ n` (`asr`; `Int` division in Lean is floor division for positive
  divisors).
* Floating-point values are idealised as exact rationals (`ℚ`): the
  decoder's float divisions are modelled as exact division, and the
  `%.6f` formatting of `SPrintf` is modelled by `fixed6`, which rounds
  the scaled magnitude to six decimal digits.
* The byte stream of the host tool is `FileStream` (a list of bytes and
  a cursor); multi-byte fields are little-endian (`leWord`), and the
  host's `string` read consumes bytes up to a null terminator.  Raw
  float fields read from the stream are represented by their
  little-endian bit patterns (`Nat`), since the layout claims concern
  only field order and widths.
-/

namespace Resources

/-- Reinterpret a 32-bit unsigned word (`0 ≤ n < 2 ^ 32`) as a signed
`int32`, as the C cast `(int)` does. -/
def toSigned32 (n : Nat) : Int :=
  if n < 2147483648 then (n : Int) else (n : Int) - 4294967296

/-- C left shift of a `u32` by `n` bits: multiply by `2 ^ n` and wrap
modulo `2 ^ 32`. -/
def shl32 (w n : Nat) : Nat := (w * 2 ^ n) % 4294967296

/-- C arithmetic right shift of an `int32` by `n` bits: floor division
by `2 ^ n` (Lean's `Int` division is floor division for a positive
divisor). -/
def asr (x : Int) (n : Nat) : Int := x / 2 ^ n

/-- Mathematical sign extension: the value of an unsigned `W`-bit code
`v` read as a two's-complement signed integer. -/
def toSigned (W : Nat) (v : Nat) : Int :=
  if v < 2 ^ (W - 1) then (v : Int) else (v : Int) - 2 ^ W

/-! Constants of `ReadNormal11_11_10` (lines 109-127 of the source). -/

def FULL_WIDTH : Nat := 32

def X_POS : Nat := 0

def X_WIDTH : Nat := 11

def X_LSHIFT : Nat := FULL_WIDTH - X_POS - X_WIDTH

def X_RSHIFT : Nat := FULL_WIDTH - X_WIDTH

def X_DOT : Nat := (1 <<< (X_WIDTH - 1)) - 1

def Y_POS : Nat := X_POS + X_WIDTH

def Y_WIDTH : Nat := 11

def Y_LSHIFT : Nat := FULL_WIDTH - Y_POS - Y_WIDTH

def Y_RSHIFT : Nat := FULL_WIDTH - Y_WIDTH

def Y_DOT : Nat := (1 <<< (Y_WIDTH - 1)) - 1

def Z_POS : Nat := Y_POS + Y_WIDTH

def Z_WIDTH : Nat := 10

def Z_LSHIFT : Nat := FULL_WIDTH - Z_POS - Z_WIDTH

def Z_RSHIFT : Nat := FULL_WIDTH - Z_WIDTH

def Z_DOT : Nat := (1 <<< (Z_WIDTH - 1)) - 1

/-- `int xInt = ((int)(packed << X_LSHIFT)) >> X_RSHIFT;` -/
def xInt (packed : Nat) : Int := asr (toSigned32 (shl32 packed X_LSHIFT)) X_RSHIFT

/-- `int yInt = ((int)(packed << Y_LSHIFT)) >> Y_RSHIFT;` -/
def yInt (packed : Nat) : Int := asr (toSigned32 (shl32 packed Y_LSHIFT)) Y_RSHIFT

/-- `int zInt = ((int)(packed << Z_LSHIFT)) >> Z_RSHIFT;` -/
def zInt (packed : Nat) : Int := asr (toSigned32 (shl32 packed Z_LSHIFT)) Z_RSHIFT

/-- `f32 x = (float)xInt / (float)X_DOT;` (float division idealised as
exact rational division). -/
def xVal (packed : Nat) : ℚ := (xInt packed : ℚ) / (X_DOT : ℚ)

/-- `f32 y = (float)yInt / (float)Y_DOT;` -/
def yVal (packed : Nat) : ℚ := (yInt packed : ℚ) / (Y_DOT : ℚ)

/-- `f32 z = (float)zInt / (float)Z_DOT;` -/
def zVal (packed : Nat) : ℚ := (zInt packed : ℚ) / (Z_DOT : ℚ)

/-- The three decoded components of `ReadNormal11_11_10`, before
formatting. -/
def decodeNormal (packed : Nat) : ℚ × ℚ × ℚ := (xVal packed, yVal packed, zVal packed)

/-! Characterisation of the three extractions as sign-extended
bit-fields. -/

lemma xInt_eq (w : Nat) : xInt w = toSigned 11 (w % 2 ^ 11) := by
  unfold xInt asr toSigned32 shl32 toSigned X_LSHIFT X_RSHIFT FULL_WIDTH X_POS X_WIDTH
  norm_num
  split_ifs <;> omega

lemma yInt_eq (w : Nat) : yInt w = toSigned 11 (w / 2 ^ 11 % 2 ^ 11) := by
  unfold yInt asr toSigned32 shl32 toSigned Y_LSHIFT Y_RSHIFT FULL_WIDTH Y_POS X_POS X_WIDTH Y_WIDTH
  norm_num
  split_ifs <;> omega

lemma zInt_eq (w : Nat) : zInt w = toSigned 10 (w % 2 ^ 32 / 2 ^ 22) := by
  unfold zInt asr toSigned32 shl32 toSigned Z_LSHIFT Z_RSHIFT FULL_WIDTH Z_POS Y_POS X_POS X_WIDTH Y_WIDTH Z_WIDTH
  norm_num
  split_ifs <;> omega

lemma toSigned11_bounds (v : Nat) (hv : v < 2 ^ 11) :
    -1024 ≤ toSigned 11 v ∧ toSigned 11 v ≤ 1023 := by
  unfold toSigned
  norm_num
  split_ifs <;> omega

lemma toSigned10_bounds (v : Nat) (hv : v < 2 ^ 10) :
    -512 ≤ toSigned 10 v ∧ toSigned 10 v ≤ 511 := by
  unfold toSigned
  norm_num
  split_ifs <;> omega

/-- C1: for every 32-bit word, each of the three bit-fields (X: width 11
at bit 0, Y: width 11 at bit 11, Z: width 10 at bit 22) is extracted by
the shift pair as exactly the sign extension of the field's unsigned
code, and the extracted signed value lies in `[-2^(W-1), 2^(W-1)-1]` for
the field's width `W`. -/
theorem C1_sign_extension (w : Nat) (h : w < 2 ^ 32) :
    (xInt w = toSigned 11 (w % 2 ^ 11) ∧ -1024 ≤ xInt w ∧ xInt w ≤ 1023) ∧
    (yInt w = toSigned 11 (w / 2 ^ 11 % 2 ^ 11) ∧ -1024 ≤ yInt w ∧ yInt w ≤ 1023) ∧
    (zInt w = toSigned 10 (w / 2 ^ 22) ∧ -512 ≤ zInt w ∧ zInt w ≤ 511) := by
  have hx := xInt_eq w
  have hy := yInt_eq w
  have hz := zInt_eq w
  rw [Nat.mod_eq_of_lt h] at hz
  have bx := toSigned11_bounds (w % 2 ^ 11) (Nat.mod_lt _ (by norm_num))
  have by' := toSigned11_bounds (w / 2 ^ 11 % 2 ^ 11) (Nat.mod_lt _ (by norm_num))
  have bz : w / 2 ^ 22 < 2 ^ 10 := by omega
  have bz' := toSigned10_bounds (w / 2 ^ 22) bz
  exact ⟨⟨hx, by rw [hx]; exact bx⟩, ⟨hy, by rw [hy]; exact by'⟩, ⟨hz, by rw [hz]; exact bz'⟩⟩

/-- Closed instance of `C1_sign_extension` at the word 5000
(X-field 904, Y-field 2, Z-field 0). -/
theorem C1_sign_extension_witness :
    5000 < 2 ^ 32 ∧
    ((xInt 5000 = toSigned 11 (5000 % 2 ^ 11) ∧ -1024 ≤ xInt 5000 ∧ xInt 5000 ≤ 1023) ∧
     (yInt 5000 = toSigned 11 (5000 / 2 ^ 11 % 2 ^ 11) ∧ -1024 ≤ yInt 5000 ∧ yInt 5000 ≤ 1023) ∧
     (zInt 5000 = toSigned 10 (5000 / 2 ^ 22) ∧ -512 ≤ zInt 5000 ∧ zInt 5000 ≤ 511)) :=
  ⟨by decide, C1_sign_extension 5000 (by decide)⟩

/-- C2: the normalisation divisors are `2^(W-1) - 1`: 1023 for the two
11-bit fields and 511 for the 10-bit field, and every decoded component
is the sign-extended field value divided by that divisor. -/
theorem C2_normalisation_divisors :
    (X_DOT = 1023 ∧ Y_DOT = 1023 ∧ Z_DOT = 511) ∧
    ∀ w : Nat, xVal w = (xInt w : ℚ) / 1023 ∧ yVal w = (yInt w : ℚ) / 1023 ∧
      zVal w = (zInt w : ℚ) / 511 := by
  refine ⟨⟨by decide, by decide, by decide⟩, fun w => ⟨?_, ?_, ?_⟩⟩
  · rw [xVal, show X_DOT = 1023 by decide]
    norm_num
  · rw [yVal, show Y_DOT = 1023 by decide]
    norm_num
  · rw [zVal, show Z_DOT = 511 by decide]
    norm_num

/-! Data shapes (lines 15-105 of the source).  The scalar type is a
parameter: formatters use the idealised float `ℚ`, the byte-stream
readers use the raw little-endian bit pattern (`Nat`). -/

structure Vector2 (α : Type) where
  X : α
  Y : α

structure Vector2Half (α : Type) where
  X : α
  Y : α

structure Vector3 (α : Type) where
  X : α
  Y : α
  Z : α

structure Vector4 (α : Type) where
  X : α
  Y : α
  Z : α
  W : α

structure BoundingBox (α : Type) where
  Min : Vector3 α
  Max : Vector3 α

structure BoundingSphere (α : Type) where
  Center : Vector3 α
  Radius : α

structure Normal11_11_10ToString where
  Value : Nat

/-! `SPrintf "%.6f"` formatting, idealised over `ℚ`. -/

/-- The decimal digit character for `n % 10`. -/
def digitChar (n : Nat) : Char := Char.ofNat (48 + n % 10)

/-- The six decimal digits of `n` (for `n < 10 ^ 6`), most significant
first. -/
def sixDigits (n : Nat) : String :=
  String.mk [digitChar (n / 100000), digitChar (n / 10000), digitChar (n / 1000),
    digitChar (n / 100), digitChar (n / 10), digitChar n]

/-- `|q| * 10 ^ 6`, rounded half-up to an integer: the scaled magnitude
printed by `%.6f`. -/
def scale6 (q : ℚ) : Nat := (q.num.natAbs * 2000000 + q.den) / (2 * q.den)

/-- `%.6f`: optional sign, integer part, a dot, and exactly six fraction
digits. -/
def fixed6 (q : ℚ) : String :=
  (if q < 0 then "-" else "") ++ toString (scale6 q / 1000000) ++ "." ++
    sixDigits (scale6 q % 1000000)

/-- `SPrintf( buffer, "[%.6f, %.6f]", value.X, value.Y )` -/
def Vector2ToString (value : Vector2 ℚ) : String :=
  "[" ++ fixed6 value.X ++ ", " ++ fixed6 value.Y ++ "]"

/-- `SPrintf( buffer, "[%.6f, %.6f]", value.X, value.Y )` -/
def Vector2HalfToString (value : Vector2Half ℚ) : String :=
  "[" ++ fixed6 value.X ++ ", " ++ fixed6 value.Y ++ "]"

/-- `SPrintf( buffer, "[%.6f, %.6f, %.6f]", value.X, value.Y, value.Z )` -/
def Vector3ToString (value : Vector3 ℚ) : String :=
  "[" ++ fixed6 value.X ++ ", " ++ fixed6 value.Y ++ ", " ++ fixed6 value.Z ++ "]"

/-- `SPrintf( buffer, "[%.6f, %.6f, %.6f, %.6f]", ... )` -/
def Vector4ToString (value : Vector4 ℚ) : String :=
  "[" ++ fixed6 value.X ++ ", " ++ fixed6 value.Y ++ ", " ++ fixed6 value.Z ++ ", " ++
    fixed6 value.W ++ "]"

/-- `SPrintf( buffer, "[%.6f, %.6f, %.6f] [%.6f, %.6f, %.6f]", Min..., Max... )` -/
def BoundingBoxToString (value : BoundingBox ℚ) : String :=
  "[" ++ fixed6 value.Min.X ++ ", " ++ fixed6 value.Min.Y ++ ", " ++ fixed6 value.Min.Z ++
    "] [" ++ fixed6 value.Max.X ++ ", " ++ fixed6 value.Max.Y ++ ", " ++ fixed6 value.Max.Z ++ "]"

/-- `SPrintf( buffer, "[%.6f, %.6f, %.6f] %.6f", Center..., Radius )` -/
def BoundingSphereToString (value : BoundingSphere ℚ) : String :=
  "[" ++ fixed6 value.Center.X ++ ", " ++ fixed6 value.Center.Y ++ ", " ++
    fixed6 value.Center.Z ++ "] " ++ fixed6 value.Radius

/-- `ReadNormal11_11_10`: decode the packed word and render the three
components with `"[%.6f, %.6f, %.6f]"`. -/
def ReadNormal11_11_10 (value : Normal11_11_10ToString) : String :=
  "[" ++ fixed6 (xVal value.Value) ++ ", " ++ fixed6 (yVal value.Value) ++ ", " ++
    fixed6 (zVal value.Value) ++ "]"

/-! Helper facts for the boundary-code and determinism claims. -/

lemma xInt_zero : xInt 0 = 0 := by decide

lemma yInt_zero : yInt 0 = 0 := by decide

lemma zInt_zero : zInt 0 = 0 := by decide

lemma xVal_zero : xVal 0 = 0 := by
  rw [xVal, xInt_zero]
  norm_num

lemma yVal_zero : yVal 0 = 0 := by
  rw [yVal, yInt_zero]
  norm_num

lemma zVal_zero : zVal 0 = 0 := by
  rw [zVal, zInt_zero]
  norm_num

/-- C3: boundary codes of the decoder: the word 0 decodes to
`(0, 0, 0)`; a word whose X-field holds the maximum positive code 1023
decodes to `x = 1023 / 1023 = 1`; a word whose X-field holds the minimum
negative code `0x400` (value -1024) decodes to `x = -1024 / 1023`, which
is strictly below -1 (the asymmetric value is produced, not clamped). -/
theorem C3_boundary_codes (w₁ w₂ : Nat) (hw₁ : w₁ % 2 ^ 11 = 1023)
    (hw₂ : w₂ % 2 ^ 11 = 1024) :
    decodeNormal 0 = (0, 0, 0) ∧ xVal w₁ = 1 ∧
    xVal w₂ = -1024 / 1023 ∧ xVal w₂ < -1 := by
  have h2 : xVal w₂ = -1024 / 1023 := by
    rw [xVal, xInt_eq, hw₂, show X_DOT = 1023 by decide]
    norm_num [toSigned]
  refine ⟨?_, ?_, h2, ?_⟩
  · rw [decodeNormal, xVal_zero, yVal_zero, zVal_zero]
  · rw [xVal, xInt_eq, hw₁, show X_DOT = 1023 by decide]
    norm_num [toSigned]
  · rw [h2]
    norm_num

/-- Closed instance of `C3_boundary_codes` at the words 1023 and 1024. -/
theorem C3_boundary_codes_witness :
    (1023 % 2 ^ 11 = 1023 ∧ 1024 % 2 ^ 11 = 1024) ∧
    (decodeNormal 0 = (0, 0, 0) ∧ xVal 1023 = 1 ∧
     xVal 1024 = -1024 / 1023 ∧ xVal 1024 < -1) :=
  ⟨⟨by decide, by decide⟩, C3_boundary_codes 1023 1024 (by decide) (by decide)⟩

lemma shl32_congr (n w₁ w₂ : Nat) (h : w₁ % 2 ^ 32 = w₂ % 2 ^ 32) :
    shl32 w₁ n = shl32 w₂ n := by
  have h' : w₁ % 4294967296 = w₂ % 4294967296 := by
    norm_num at h
    exact h
  rw [shl32, shl32, Nat.mul_mod w₁, Nat.mul_mod w₂, h']

/-- C6: the decoder is deterministic and a pure function of the 32 input
bits: it is defined (as a total Lean function) on every input word, and
any two words with the same 32-bit value decode to identical components
and to the identical formatted string. -/
theorem C6_decoder_deterministic (w₁ w₂ : Nat) (h : w₁ % 2 ^ 32 = w₂ % 2 ^ 32) :
    decodeNormal w₁ = decodeNormal w₂ ∧
    ReadNormal11_11_10 ⟨w₁⟩ = ReadNormal11_11_10 ⟨w₂⟩ := by
  have hx : xInt w₁ = xInt w₂ := by rw [xInt, xInt, shl32_congr X_LSHIFT w₁ w₂ h]
  have hy : yInt w₁ = yInt w₂ := by rw [yInt, yInt, shl32_congr Y_LSHIFT w₁ w₂ h]
  have hz : zInt w₁ = zInt w₂ := by rw [zInt, zInt, shl32_congr Z_LSHIFT w₁ w₂ h]
  have hxv : xVal w₁ = xVal w₂ := by rw [xVal, xVal, hx]
  have hyv : yVal w₁ = yVal w₂ := by rw [yVal, yVal, hy]
  have hzv : zVal w₁ = zVal w₂ := by rw [zVal, zVal, hz]
  constructor
  · rw [decodeNormal, decodeNormal, hxv, hyv, hzv]
  · rw [ReadNormal11_11_10, ReadNormal11_11_10]
    simp only
    rw [hxv, hyv, hzv]

/-- Closed instance of `C6_decoder_deterministic`: the words
`2 ^ 32 + 12345` and `12345` have the same 32-bit value and decode
identically. -/
theorem C6_decoder_deterministic_witness :
    (2 ^ 32 + 12345) % 2 ^ 32 = 12345 % 2 ^ 32 ∧
    (decodeNormal (2 ^ 32 + 12345) = decodeNormal 12345 ∧
     ReadNormal11_11_10 ⟨2 ^ 32 + 12345⟩ = ReadNormal11_11_10 ⟨12345⟩) :=
  ⟨by decide, C6_decoder_deterministic (2 ^ 32 + 12345) 12345 (by decide)⟩

/-! Facts about the `%.6f` rendering used by every formatter. -/

lemma digitChar_isDigit (m : Nat) : (digitChar m).isDigit = true := by
  rw [digitChar]
  have h : m % 10 < 10 := Nat.mod_lt _ (by norm_num)
  generalize m % 10 = k at h
  interval_cases k <;> decide

lemma sixDigits_length (n : Nat) : (sixDigits n).length = 6 := rfl

lemma sixDigits_isDigit (n : Nat) (c : Char) (hc : c ∈ (sixDigits n).data) :
    c.isDigit = true := by
  have hc2 : c ∈ [digitChar (n / 100000), digitChar (n / 10000), digitChar (n / 1000),
      digitChar (n / 100), digitChar (n / 10), digitChar n] := hc
  simp only [List.mem_cons, List.not_mem_nil, or_false] at hc2
  rcases hc2 with h | h | h | h | h | h <;> (subst h; exact digitChar_isDigit _)

/-- C7: every display formatter renders its numeric components through
`%.6f` (a dot followed by exactly six decimal digits) inside a
square-bracket-delimited, comma-separated component list; `BoundingBox`
renders its Min and Max triples and `BoundingSphere` its Center triple
and Radius space-separated; the Vector2 `(1, 2)` formats as
`"[1.000000, 2.000000]"` and the packed-normal word 0 as
`"[0.000000, 0.000000, 0.000000]"`. -/
theorem C7_formatters :
    (∀ v : Vector2 ℚ, Vector2ToString v = "[" ++ fixed6 v.X ++ ", " ++ fixed6 v.Y ++ "]") ∧
    (∀ v : Vector2Half ℚ, Vector2HalfToString v = "[" ++ fixed6 v.X ++ ", " ++ fixed6 v.Y ++ "]") ∧
    (∀ v : Vector3 ℚ, Vector3ToString v =
      "[" ++ fixed6 v.X ++ ", " ++ fixed6 v.Y ++ ", " ++ fixed6 v.Z ++ "]") ∧
    (∀ v : Vector4 ℚ, Vector4ToString v =
      "[" ++ fixed6 v.X ++ ", " ++ fixed6 v.Y ++ ", " ++ fixed6 v.Z ++ ", " ++
        fixed6 v.W ++ "]") ∧
    (∀ b : BoundingBox ℚ, BoundingBoxToString b =
      "[" ++ fixed6 b.Min.X ++ ", " ++ fixed6 b.Min.Y ++ ", " ++ fixed6 b.Min.Z ++
      "] [" ++ fixed6 b.Max.X ++ ", " ++ fixed6 b.Max.Y ++ ", " ++ fixed6 b.Max.Z ++ "]") ∧
    (∀ b : BoundingSphere ℚ, BoundingSphereToString b =
      "[" ++ fixed6 b.Center.X ++ ", " ++ fixed6 b.Center.Y ++ ", " ++
        fixed6 b.Center.Z ++ "] " ++ fixed6 b.Radius) ∧
    (∀ q : ℚ, ∃ pre : String,
      fixed6 q = pre ++ "." ++ sixDigits (scale6 q % 1000000) ∧
      (sixDigits (scale6 q % 1000000)).length = 6 ∧
      ∀ c ∈ (sixDigits (scale6 q % 1000000)).data, c.isDigit = true) ∧
    Vector2ToString ⟨1, 2⟩ = "[1.000000, 2.000000]" ∧
    ReadNormal11_11_10 ⟨0⟩ = "[0.000000, 0.000000, 0.000000]" := by
  refine ⟨fun v => rfl, fun v => rfl, fun v => rfl, fun v => rfl, fun b => rfl, fun b => rfl,
    fun q => ⟨(if q < 0 then "-" else "") ++ toString (scale6 q / 1000000), rfl, rfl,
      sixDigits_isDigit (scale6 q % 1000000)⟩, by decide, ?_⟩
  show "[" ++ fixed6 (xVal 0) ++ ", " ++ fixed6 (yVal 0) ++ ", " ++ fixed6 (zVal 0) ++ "]" = _
  rw [xVal_zero, yVal_zero, zVal_zero]
  decide

/-! The host byte stream and its read primitives (`FTell`, `FSeek`,
little-endian field reads, null-terminated string reads). -/

structure FileStream where
  data : List Nat
  pos : Nat

/-- The byte at absolute position `i` (reads past the end are a host
fault; the model yields 0 there). -/
def byteAt (d : List Nat) (i : Nat) : Nat := d.getD i 0

/-- The little-endian value of the `k` bytes at position `p`. -/
def leWord (d : List Nat) (p : Nat) : Nat → Nat
  | 0 => 0
  | k + 1 => byteAt d p + 256 * leWord d (p + 1) k

def FTell (s : FileStream) : Nat := s.pos

def FSeek (s : FileStream) (p : Nat) : FileStream := ⟨s.data, p⟩

/-- Read a `u32` field: 4 little-endian bytes, cursor advances by 4. -/
def readU32 (s : FileStream) : Nat × FileStream :=
  (leWord s.data s.pos 4, ⟨s.data, s.pos + 4⟩)

/-- Read an `f32` field as its raw 4-byte little-endian bit pattern. -/
def readF32 (s : FileStream) : Nat × FileStream :=
  (leWord s.data s.pos 4, ⟨s.data, s.pos + 4⟩)

/-- Read an `f16` field as its raw 2-byte little-endian bit pattern. -/
def readF16 (s : FileStream) : Nat × FileStream :=
  (leWord s.data s.pos 2, ⟨s.data, s.pos + 2⟩)

/-- Read a null-terminated `string`: the bytes before the first 0 from
the cursor; the cursor advances past the terminator. -/
def readString (s : FileStream) : List Nat × FileStream :=
  ((s.data.drop s.pos).takeWhile (fun b => b != 0),
   ⟨s.data, s.pos + ((s.data.drop s.pos).takeWhile (fun b => b != 0)).length + 1⟩)

/-- The decoded `StringOffset` record: `Value` is present only when the
offset is nonzero (lines 145-156 of the source). -/
structure StringOffset where
  Offset : Nat
  Value : Option (List Nat)

/-- Decode a `StringOffset` record at the cursor, with the
caller-supplied `base`: read the 4-byte offset; if it is nonzero, save
the cursor, seek to `base + Offset`, read the string, and restore the
cursor. -/
def readStringOffset (base : Nat) (s : FileStream) : StringOffset × FileStream :=
  let r := readU32 s
  if r.1 ≠ 0 then
    let returnPos := FTell r.2
    let s2 := FSeek r.2 (base + r.1)
    let r2 := readString s2
    (⟨r.1, some r2.1⟩, FSeek r2.2 returnPos)
  else
    (⟨r.1, none⟩, r.2)

/-- `StringOffsetToString`: empty for a zero offset, otherwise the
referenced value (lines 158-162 of the source). -/
def StringOffsetToString (value : StringOffset) : List Nat :=
  if value.Offset = 0 then [] else value.Value.getD []

/-- C4: decoding a `StringOffset` whose offset field is nonzero leaves
the cursor exactly 4 bytes past the record start (the detour to
`base + Offset` is saved and restored), does not change the data, and
stores the null-terminated string found at `base + Offset`. -/
theorem C4_nonzero_offset_cursor (base : Nat) (s : FileStream)
    (h : leWord s.data s.pos 4 ≠ 0) :
    (readStringOffset base s).2.pos = s.pos + 4 ∧
    (readStringOffset base s).2.data = s.data ∧
    (readStringOffset base s).1.Offset = leWord s.data s.pos 4 ∧
    (readStringOffset base s).1.Value =
      some ((s.data.drop (base + leWord s.data s.pos 4)).takeWhile (fun b => b != 0)) := by
  simp [readStringOffset, readU32, FTell, FSeek, readString, h]

/-- Closed instance of `C4_nonzero_offset_cursor`: offset 4 at base 0
references the string `[72, 105]` at position 4, and the cursor ends at
position 4. -/
theorem C4_nonzero_offset_cursor_witness :
    leWord [4, 0, 0, 0, 72, 105, 0] 0 4 ≠ 0 ∧
    (readStringOffset 0 ⟨[4, 0, 0, 0, 72, 105, 0], 0⟩).2.pos = 0 + 4 ∧
    (readStringOffset 0 ⟨[4, 0, 0, 0, 72, 105, 0], 0⟩).1.Value = some [72, 105] :=
  ⟨by decide,
   (C4_nonzero_offset_cursor 0 ⟨[4, 0, 0, 0, 72, 105, 0], 0⟩ (by decide)).1,
   by decide⟩

/-- C5: decoding a `StringOffset` whose offset field is zero performs no
seek and reads no string: the result is exactly the record with offset 0
and an absent value, and the stream is exactly the input stream advanced
4 bytes. -/
theorem C5_zero_offset_no_seek (base : Nat) (s : FileStream)
    (h : leWord s.data s.pos 4 = 0) :
    readStringOffset base s = (⟨0, none⟩, ⟨s.data, s.pos + 4⟩) := by
  simp [readStringOffset, readU32, h]

/-- Closed instance of `C5_zero_offset_no_seek` on a stream whose first
four bytes are zero. -/
theorem C5_zero_offset_no_seek_witness :
    leWord [0, 0, 0, 0, 65] 0 4 = 0 ∧
    readStringOffset 7 ⟨[0, 0, 0, 0, 65], 0⟩ = (⟨0, none⟩, ⟨[0, 0, 0, 0, 65], 0 + 4⟩) :=
  ⟨by decide, C5_zero_offset_no_seek 7 ⟨[0, 0, 0, 0, 65], 0⟩ (by decide)⟩

/-! Field-by-field readers for the fixed-layout structs: each struct
reads its declared fields in order from the cursor. -/

def readVector2 (s : FileStream) : Vector2 Nat × FileStream :=
  let x := readF32 s
  let y := readF32 x.2
  (⟨x.1, y.1⟩, y.2)

def readVector2Half (s : FileStream) : Vector2Half Nat × FileStream :=
  let x := readF16 s
  let y := readF16 x.2
  (⟨x.1, y.1⟩, y.2)

def readVector3 (s : FileStream) : Vector3 Nat × FileStream :=
  let x := readF32 s
  let y := readF32 x.2
  let z := readF32 y.2
  (⟨x.1, y.1, z.1⟩, z.2)

def readVector4 (s : FileStream) : Vector4 Nat × FileStream :=
  let x := readF32 s
  let y := readF32 x.2
  let z := readF32 y.2
  let w := readF32 z.2
  (⟨x.1, y.1, z.1, w.1⟩, w.2)

def readBoundingBox (s : FileStream) : BoundingBox Nat × FileStream :=
  let mn := readVector3 s
  let mx := readVector3 mn.2
  (⟨mn.1, mx.1⟩, mx.2)

def readBoundingSphere (s : FileStream) : BoundingSphere Nat × FileStream :=
  let c := readVector3 s
  let r := readF32 c.2
  (⟨c.1, r.1⟩, r.2)

def readNormal11_11_10 (s : FileStream) : Normal11_11_10ToString × FileStream :=
  let v := readU32 s
  (⟨v.1⟩, v.2)

lemma readVector2_eq (s : FileStream) :
    readVector2 s = (⟨leWord s.data s.pos 4, leWord s.data (s.pos + 4) 4⟩,
      ⟨s.data, s.pos + 8⟩) := by
  rw [show s.pos + 8 = s.pos + 4 + 4 from by omega]
  rfl

lemma readVector2Half_eq (s : FileStream) :
    readVector2Half s = (⟨leWord s.data s.pos 2, leWord s.data (s.pos + 2) 2⟩,
      ⟨s.data, s.pos + 4⟩) := by
  rw [show s.pos + 4 = s.pos + 2 + 2 from by omega]
  rfl

lemma readVector3_eq (s : FileStream) :
    readVector3 s = (⟨leWord s.data s.pos 4, leWord s.data (s.pos + 4) 4,
      leWord s.data (s.pos + 8) 4⟩, ⟨s.data, s.pos + 12⟩) := by
  rw [show s.pos + 8 = s.pos + 4 + 4 from by omega,
    show s.pos + 12 = s.pos + 4 + 4 + 4 from by omega]
  rfl

lemma readVector4_eq (s : FileStream) :
    readVector4 s = (⟨leWord s.data s.pos 4, leWord s.data (s.pos + 4) 4,
      leWord s.data (s.pos + 8) 4, leWord s.data (s.pos + 12) 4⟩,
      ⟨s.data, s.pos + 16⟩) := by
  rw [show s.pos + 8 = s.pos + 4 + 4 from by omega,
    show s.pos + 12 = s.pos + 4 + 4 + 4 from by omega,
    show s.pos + 16 = s.pos + 4 + 4 + 4 + 4 from by omega]
  rfl

lemma readBoundingBox_eq (s : FileStream) :
    readBoundingBox s = (⟨⟨leWord s.data s.pos 4, leWord s.data (s.pos + 4) 4,
      leWord s.data (s.pos + 8) 4⟩,
      ⟨leWord s.data (s.pos + 12) 4, leWord s.data (s.pos + 16) 4,
        leWord s.data (s.pos + 20) 4⟩⟩, ⟨s.data, s.pos + 24⟩) := by
  rw [show s.pos + 8 = s.pos + 4 + 4 from by omega,
    show s.pos + 12 = s.pos + 4 + 4 + 4 from by omega,
    show s.pos + 16 = s.pos + 4 + 4 + 4 + 4 from by omega,
    show s.pos + 20 = s.pos + 4 + 4 + 4 + 4 + 4 from by omega,
    show s.pos + 24 = s.pos + 4 + 4 + 4 + 4 + 4 + 4 from by omega]
  rfl

lemma readBoundingSphere_eq (s : FileStream) :
    readBoundingSphere s = (⟨⟨leWord s.data s.pos 4, leWord s.data (s.pos + 4) 4,
      leWord s.data (s.pos + 8) 4⟩, leWord s.data (s.pos + 12) 4⟩,
      ⟨s.data, s.pos + 16⟩) := by
  rw [show s.pos + 8 = s.pos + 4 + 4 from by omega,
    show s.pos + 12 = s.pos + 4 + 4 + 4 from by omega,
    show s.pos + 16 = s.pos + 4 + 4 + 4 + 4 from by omega]
  rfl

lemma readNormal11_11_10_eq (s : FileStream) :
    readNormal11_11_10 s = (⟨leWord s.data s.pos 4⟩, ⟨s.data, s.pos + 4⟩) := rfl

/-- C8: each struct reads its fields in exactly the declared order and
widths from the byte stream, packed with no padding: `Vector2` is two
4-byte fields (8 bytes), `Vector3` three (12 bytes), `Vector4` four
(16 bytes), `Vector2Half` two 2-byte fields (4 bytes), `BoundingBox` is
`Min` then `Max` (24 bytes), `BoundingSphere` is `Center` then `Radius`
(16 bytes), and the packed normal is one `u32` (4 bytes). -/
theorem C8_wire_layout (s : FileStream) :
    readVector2 s = (⟨leWord s.data s.pos 4, leWord s.data (s.pos + 4) 4⟩,
      ⟨s.data, s.pos + 8⟩) ∧
    readVector2Half s = (⟨leWord s.data s.pos 2, leWord s.data (s.pos + 2) 2⟩,
      ⟨s.data, s.pos + 4⟩) ∧
    readVector3 s = (⟨leWord s.data s.pos 4, leWord s.data (s.pos + 4) 4,
      leWord s.data (s.pos + 8) 4⟩, ⟨s.data, s.pos + 12⟩) ∧
    readVector4 s = (⟨leWord s.data s.pos 4, leWord s.data (s.pos + 4) 4,
      leWord s.data (s.pos + 8) 4, leWord s.data (s.pos + 12) 4⟩,
      ⟨s.data, s.pos + 16⟩) ∧
    readBoundingBox s = (⟨⟨leWord s.data s.pos 4, leWord s.data (s.pos + 4) 4,
      leWord s.data (s.pos + 8) 4⟩,
      ⟨leWord s.data (s.pos + 12) 4, leWord s.data (s.pos + 16) 4,
        leWord s.data (s.pos + 20) 4⟩⟩, ⟨s.data, s.pos + 24⟩) ∧
    readBoundingSphere s = (⟨⟨leWord s.data s.pos 4, leWord s.data (s.pos + 4) 4,
      leWord s.data (s.pos + 8) 4⟩, leWord s.data (s.pos + 12) 4⟩,
      ⟨s.data, s.pos + 16⟩) ∧
    readNormal11_11_10 s = (⟨leWord s.data s.pos 4⟩, ⟨s.data, s.pos + 4⟩) :=
  ⟨readVector2_eq s, readVector2Half_eq s, readVector3_eq s, readVector4_eq s,
   readBoundingBox_eq s, readBoundingSphere_eq s, readNormal11_11_10_eq s⟩

/-- C9 counterexample: on the stream `[1, 0, 0, 0, 0]` at base 0 the
offset is 1 (nonzero) but the referenced string is empty, so the
formatter returns the empty string with a nonzero offset: "empty exactly
when the offset is 0" fails. -/
theorem C9_counterexample :
    ¬ (StringOffsetToString (readStringOffset 0 ⟨[1, 0, 0, 0, 0], 0⟩).1 = [] ↔
       (readStringOffset 0 ⟨[1, 0, 0, 0, 0], 0⟩).1.Offset = 0) := by decide

/-- C9 (amended): the formatter returns the empty string when the
record's offset is 0, and otherwise returns the referenced string read
from `base + Offset` unchanged — which may itself be empty, so an empty
result does not imply a zero offset. -/
theorem C9_empty_string_amended (base : Nat) (s : FileStream) :
    ((readStringOffset base s).1.Offset = 0 →
      StringOffsetToString (readStringOffset base s).1 = []) ∧
    ((readStringOffset base s).1.Offset ≠ 0 →
      StringOffsetToString (readStringOffset base s).1 =
        (s.data.drop (base + (readStringOffset base s).1.Offset)).takeWhile
          (fun b => b != 0)) := by
  by_cases h : leWord s.data s.pos 4 = 0
  · constructor
    · intro _
      simp [readStringOffset, readU32, StringOffsetToString, h]
    · intro hne
      exfalso
      apply hne
      simp [readStringOffset, readU32, h]
  · constructor
    · intro heq
      exfalso
      apply h
      simp [readStringOffset, readU32, h] at heq
    · intro _
      simp [readStringOffset, readU32, StringOffsetToString, FTell, FSeek, readString, h]

/-- Closed instances of `C9_empty_string_amended`: a zero offset renders
empty, and a nonzero offset renders the referenced (nonempty) string. -/
theorem C9_empty_string_amended_witness :
    StringOffsetToString (readStringOffset 0 ⟨[0, 0, 0, 0], 0⟩).1 = [] ∧
    StringOffsetToString (readStringOffset 0 ⟨[4, 0, 0, 0, 72, 0], 0⟩).1 = [72] :=
  ⟨(C9_empty_string_amended 0 ⟨[0, 0, 0, 0], 0⟩).1 (by decide),
   by rw [(C9_empty_string_amended 0 ⟨[4, 0, 0, 0, 72, 0], 0⟩).2 (by decide)]; decide⟩

/-- C10: noninterference of the three bit-fields: two 32-bit words that
agree on bits [0,11) decode to the same x; agreement on bits [11,22)
forces the same y; agreement on bits [22,32) forces the same z. -/
theorem C10_field_noninterference (w₁ w₂ : Nat) (h₁ : w₁ < 2 ^ 32) (h₂ : w₂ < 2 ^ 32) :
    (w₁ % 2 ^ 11 = w₂ % 2 ^ 11 → xVal w₁ = xVal w₂) ∧
    (w₁ / 2 ^ 11 % 2 ^ 11 = w₂ / 2 ^ 11 % 2 ^ 11 → yVal w₁ = yVal w₂) ∧
    (w₁ / 2 ^ 22 = w₂ / 2 ^ 22 → zVal w₁ = zVal w₂) := by
  refine ⟨fun h => ?_, fun h => ?_, fun h => ?_⟩
  · rw [xVal, xVal, xInt_eq, xInt_eq, h]
  · rw [yVal, yVal, yInt_eq, yInt_eq, h]
  · rw [zVal, zVal, zInt_eq, zInt_eq, Nat.mod_eq_of_lt h₁, Nat.mod_eq_of_lt h₂, h]

/-- Closed instances of `C10_field_noninterference`: pairs of words that
differ only outside one field decode to the same component for that
field. -/
theorem C10_field_noninterference_witness :
    xVal 1023 = xVal 3071 ∧ yVal 2048 = yVal 2049 ∧ zVal 4194304 = zVal 4194305 :=
  ⟨(C10_field_noninterference 1023 3071 (by decide) (by decide)).1 (by decide),
   (C10_field_noninterference 2048 2049 (by decide) (by decide)).2.1 (by decide),
   (C10_field_noninterference 4194304 4194305 (by decide) (by decide)).2.2 (by decide)⟩

end Resources
